import Mathlib

/-!
Verification development for a multiple-choice quiz application.

The embedding covers the question/test-session data-access and scoring
layer of the application:
  - the pure image-URL validator `isValidImageUrl` and its network-probe
    companion `validateImageUrl` (from `lib/questionService.ts`);
  - the data-access operations `getQuestionsByLanguage`, `insertQuestion`,
    `updateQuestion`, `insertImage`, `getImagesByQuestionId`
    (from `lib/questionService.ts` and `lib/imageService.ts`);
  - the test-taking screen state machine: question loading with fallback to
    built-in sample questions, answer selection, navigation and submit
    (from the test screen component);
  - the results screen helpers `percentage` and `getScoreMessage`
    (from the results screen component).

Backend calls are modelled by passing the backend's response as an explicit
argument (`SupaResp`); JavaScript exceptions thrown and caught inside an
operation are rendered as the corresponding early returns of the failure
envelope, which is the observable behaviour of the `try`/`catch` blocks.
-/

namespace QuizApp

/-! ## Strings: the fragment of JavaScript string operations used -/

/-- Decides whether the first list is a prefix of the second,
comparing characters with `==`. -/
def isPrefixL : List Char → List Char → Bool
  | [], _ => true
  | _ :: _, [] => false
  | a :: ra, b :: rb => a == b && isPrefixL ra rb

/-- Decides whether `pat` occurs as a contiguous sublist of the second list. -/
def containsSub (pat : List Char) : List Char → Bool
  | [] => isPrefixL pat []
  | c :: rest => isPrefixL pat (c :: rest) || containsSub pat rest

/-- Model of JavaScript `s.includes(pat)`: substring containment. -/
def includes (s pat : String) : Bool := containsSub pat.data s.data

/-- Model of JavaScript `s.toLowerCase()` (ASCII case folding, which is all
the application's inputs use). -/
def toLowerStr (s : String) : String := String.mk (s.data.map Char.toLower)

/-- Model of JavaScript `s.endsWith(pat)`. -/
def endsWithStr (s pat : String) : Bool :=
  isPrefixL pat.data.reverse s.data.reverse

/-- Splits a character list on a separator character; the separator is
dropped. -/
def splitOnCharAux (sep : Char) : List Char → List Char → List (List Char)
  | acc, [] => [acc.reverse]
  | acc, c :: rest =>
    if c == sep then acc.reverse :: splitOnCharAux sep [] rest
    else splitOnCharAux sep (c :: acc) rest

/-- Splits a character list on a separator character. -/
def splitOnChar (sep : Char) (l : List Char) : List (List Char) :=
  splitOnCharAux sep [] l

/-! ## URL parsing: model of the WHATWG `new URL(...)` constructor

The model covers the fragment of URL parsing this application exercises:
scheme recognition, `//`-authority with userinfo and port stripping,
hostname lowercasing, path / query / fragment splitting, and query-parameter
keys.  Not modelled: percent-decoding, path normalization, IPv6 hosts, and
the special-scheme leniency that allows `http:host` without `//`.  A string
with no valid scheme, or a `//`-authority with an empty host, fails to
parse (the constructor throws), which the model renders as `none`. -/

/-- Splits a character list at the first character satisfying `p`:
returns the longest prefix of characters not satisfying `p`, and the rest
(starting with the found character, or empty if none was found). -/
def breakAt (p : Char → Bool) : List Char → List Char × List Char
  | [] => ([], [])
  | c :: rest =>
    if p c then ([], c :: rest)
    else
      let q := breakAt p rest
      (c :: q.1, q.2)

/-- Characters after the last occurrence of `c` (the whole list if `c` is
absent). -/
def afterLast (c : Char) (l : List Char) : List Char :=
  ((breakAt (fun d => d == c) l.reverse).1).reverse

/-- Result of parsing a URL: the fields of the JavaScript `URL` object that
the application reads. `protocol` includes the trailing colon; `hostname`
is lowercased by the parser (as in the WHATWG standard); `searchKeys` lists
the query-parameter names in order. -/
structure URLRec where
  protocol : String
  hostname : String
  pathname : String
  searchKeys : List String
  deriving Repr, DecidableEq

/-- Scheme characters after the first: letters, digits, `+`, `-`, `.`. -/
def isSchemeChar (c : Char) : Bool :=
  c.isAlphanum || c == '+' || c == '-' || c == '.'

/-- Query-parameter keys of a raw query string (without the leading `?`):
split on `&`, drop empty pieces, take each piece up to the first `=`. -/
def queryKeys (q : List Char) : List String :=
  let pieces := splitOnChar '&' q
  (pieces.filter (fun s => s ≠ [])).map
    (fun s => String.mk (breakAt (fun d => d == '=') s).1)

/-- Model of `new URL(url)` restricted to the fragment exercised by the
application; `none` models the constructor throwing. -/
def parseURL (url : String) : Option URLRec :=
  let cs := url.data
  let sch := breakAt (fun d => d == ':') cs
  match sch.2 with
  | [] => none
  | _ :: rest =>
    if sch.1 = [] then none
    else if ¬ (sch.1.head! ).isAlpha then none
    else if ¬ sch.1.all isSchemeChar then none
    else
      let protocol := toLowerStr (String.mk sch.1) ++ ":"
      match rest with
      | '/' :: '/' :: afterSlashes =>
        let auth := breakAt (fun d => d == '/' || d == '?' || d == '#') afterSlashes
        let hostPort := breakAt (fun d => d == ':') (afterLast '@' auth.1)
        let hostname := toLowerStr (String.mk hostPort.1)
        if hostname = "" then none
        else
          let noFrag := (breakAt (fun d => d == '#') auth.2).1
          let pq := breakAt (fun d => d == '?') noFrag
          let pathname := if pq.1 = [] then "/" else String.mk pq.1
          some { protocol := protocol, hostname := hostname,
                 pathname := pathname,
                 searchKeys := queryKeys (pq.2.drop 1) }
      | _ =>
        let noFrag := (breakAt (fun d => d == '#') rest).1
        let pq := breakAt (fun d => d == '?') noFrag
        some { protocol := protocol, hostname := "",
               pathname := String.mk pq.1,
               searchKeys := queryKeys (pq.2.drop 1) }

/-! ## Stage-1 image-URL validator (`isValidImageUrl`) -/

/-- The fixed list of image file extensions from `isValidImageUrl`. -/
def imageExtensions : List String :=
  [".jpg", ".jpeg", ".png", ".gif", ".webp", ".svg", ".bmp", ".avif"]

/-- The fixed allow-list of known image-hosting domains from
`isValidImageUrl`. -/
def imageHosts : List String :=
  ["images.pexels.com", "images.unsplash.com", "cdn.pixabay.com",
   "i.imgur.com", "upload.wikimedia.org", "raw.githubusercontent.com"]

/-- Embedding of `isValidImageUrl` from the source: empty string is
rejected; the URL must parse with protocol `http:` or `https:`; then the
check accepts if the lowercased path CONTAINS one of the extensions, or the
lowercased hostname CONTAINS one of the allow-listed domains, or the path
contains `/images/`, or the query has a `w` or `width` parameter. -/
def isValidImageUrl (url : String) : Bool :=
  if url = "" then false
  else
    match parseURL url with
    | none => false
    | some urlObj =>
      if ¬ (["http:", "https:"].contains urlObj.protocol) then false
      else
        let pathname := toLowerStr urlObj.pathname
        let hostname := toLowerStr urlObj.hostname
        (imageExtensions.any fun ext => includes pathname ext) ||
        (imageHosts.any fun host => includes hostname host) ||
        includes pathname "/images/" ||
        urlObj.searchKeys.contains "w" ||
        urlObj.searchKeys.contains "width"

/-- Formalisation of the claimed stage-1 acceptance condition, following the
spec words: path ENDS in one of the extensions, or the hostname EQUALS one
of the allow-listed domains, or the path contains `/images/`, or the query
has a `w` or `width` parameter; non-parsing and non-http(s) strings are
rejected. -/
def isValidImageUrlClaimed (url : String) : Bool :=
  match parseURL url with
  | none => false
  | some urlObj =>
    if ¬ (["http:", "https:"].contains urlObj.protocol) then false
    else
      (imageExtensions.any fun ext => endsWithStr (toLowerStr urlObj.pathname) ext) ||
      (imageHosts.any fun host => toLowerStr urlObj.hostname = host) ||
      includes (toLowerStr urlObj.pathname) "/images/" ||
      urlObj.searchKeys.contains "w" ||
      urlObj.searchKeys.contains "width"

/-- The claimed acceptance condition amended to match the source: substring
containment in place of suffix/equality tests. -/
def isValidImageUrlContains (url : String) : Bool :=
  match parseURL url with
  | none => false
  | some urlObj =>
    if ¬ (["http:", "https:"].contains urlObj.protocol) then false
    else
      (imageExtensions.any fun ext => includes (toLowerStr urlObj.pathname) ext) ||
      (imageHosts.any fun host => includes (toLowerStr urlObj.hostname) host) ||
      includes (toLowerStr urlObj.pathname) "/images/" ||
      urlObj.searchKeys.contains "w" ||
      urlObj.searchKeys.contains "width"

/-! ## Stage-2 image-URL validator (`validateImageUrl`)

The network is modelled by passing the outcomes of the HEAD request and of
the fallback ranged GET request as explicit arguments. -/

/-- The fields of a fetch response that `validateImageUrl` reads.
`response.ok` is derived from the status (`200 ≤ status ≤ 299`). -/
structure FetchResp where
  status : Nat
  contentType : Option String
  deriving Repr, DecidableEq

/-- Outcome of a `fetch` call: a response, or a thrown network error. -/
inductive FetchResult where
  | resp (r : FetchResp)
  | throws
  deriving Repr, DecidableEq

/-- JavaScript `response.ok`: status in the inclusive range 200–299. -/
def respOk (r : FetchResp) : Bool := 200 ≤ r.status && r.status ≤ 299

/-- JavaScript `contentType?.startsWith('image/') === true` where
`contentType` is the possibly-null content-type header. -/
def ctIsImage (r : FetchResp) : Bool :=
  (r.contentType.map (fun ct => isPrefixL "image/".data ct.data)).getD false

/-- Embedding of `validateImageUrl` from the source: stage-1 gate, then the
HEAD probe, then the ranged-GET fallback, then accept-by-default. -/
def validateImageUrl (url : String) (head get : FetchResult) : Bool :=
  if ¬ isValidImageUrl url then false
  else
    match head with
    | .resp r => respOk r && (ctIsImage r || r.status == 200)
    | .throws =>
      match get with
      | .resp r => respOk r
      | .throws => true

/-! ## Data model -/

/-- The `Question` record from `types/database.ts`.  The closed enumerations
(`language`, `difficulty`) are modelled as strings, as the data-access layer
never inspects them. -/
structure Question where
  id : String
  question_text : String
  options : List String
  correct_answer : Nat
  language : String
  category : String
  difficulty : String
  created_at : String
  images : Option String
  deriving Repr, DecidableEq

/-- The `TestSession` record from `types/database.ts`.  `answers` entries
are `none` for the "unanswered" marker (JavaScript `null`). -/
structure TestSession where
  id : String
  language : String
  questions : List String
  answers : List (Option Nat)
  score : Nat
  total_questions : Nat
  completed_at : Option String
  created_at : String
  deriving Repr, DecidableEq

/-! ## Test screen state machine -/

/-- The in-memory state of the test screen: the loaded questions, the
current question index, the per-question answers, and the in-progress
session record. -/
structure TestState where
  questions : List Question
  currentQuestionIndex : Nat
  answers : List (Option Nat)
  testSession : Option TestSession
  deriving Repr, DecidableEq

/-- The session record created when questions are loaded (both the
backend-data branch and the sample-questions branch build it the same way):
client-generated id `sid`, creation timestamp `ts`, all answers unset,
score 0. -/
def initSession (qs : List Question) (lang sid ts : String) : TestSession :=
  { id := sid
    language := lang
    questions := qs.map (fun q => q.id)
    answers := List.replicate qs.length none
    score := 0
    total_questions := qs.length
    completed_at := none
    created_at := ts }

/-- The screen state immediately after a question list is installed. -/
def mkState (qs : List Question) (lang sid ts : String) : TestState :=
  { questions := qs
    currentQuestionIndex := 0
    answers := List.replicate qs.length none
    testSession := some (initSession qs lang sid ts) }

/-- The three built-in sample questions from `loadSampleQuestions`,
parameterised by the active language code and the creation timestamp. -/
def sampleQuestions (language ts : String) : List Question :=
  [ { id := "1"
      question_text :=
        if language = "en" then "What is the capital of India?"
        else if language = "hi" then "भारत की राजधानी क्या है?"
        else "భారతదేశ రాజధాని ఏది?"
      options :=
        if language = "en" then ["Mumbai", "Delhi", "Kolkata", "Chennai"]
        else if language = "hi" then ["मुंबई", "दिल्ली", "कोलकाता", "चेन्नई"]
        else ["ముంబై", "ఢిల్లీ", "కోల్‌కతా", "చెన్నై"]
      correct_answer := 1
      language := language
      category := "general"
      difficulty := "easy"
      created_at := ts
      images := some "https://images.pexels.com/photos/1486222/pexels-photo-1486222.jpeg?auto=compress&cs=tinysrgb&w=800" },
    { id := "2"
      question_text :=
        if language = "en" then "Which planet is known as the Red Planet?"
        else if language = "hi" then "कौन सा ग्रह लाल ग्रह के नाम से जाना जाता है?"
        else "ఏ గ్రహాన్ని రెడ్ ప్లానెట్ అని పిలుస్తారు?"
      options :=
        if language = "en" then ["Venus", "Mars", "Jupiter", "Saturn"]
        else if language = "hi" then ["शुक्र", "मंगल", "बृहस्पति", "शनि"]
        else ["శుక్రుడు", "మంగళుడు", "బృహస్పతి", "శని"]
      correct_answer := 1
      language := language
      category := "science"
      difficulty := "easy"
      created_at := ts
      images := some "https://images.pexels.com/photos/87009/earth-soil-creep-moon-lunar-surface-87009.jpeg?auto=compress&cs=tinysrgb&w=800" },
    { id := "3"
      question_text :=
        if language = "en" then "What mathematical operation is shown?"
        else if language = "hi" then "कौन सा गणितीय ऑपरेशन दिखाया गया है?"
        else "ఏ గణిత ఆపరేషన్ చూపబడింది?"
      options :=
        if language = "en" then ["Addition", "Subtraction", "Multiplication", "Division"]
        else if language = "hi" then ["जोड़", "घटाव", "गुणा", "भाग"]
        else ["కూడిక", "తీసివేత", "గుణకారం", "భాగహారం"]
      correct_answer := 2
      language := language
      category := "mathematics"
      difficulty := "easy"
      created_at := ts
      images := some "https://images.pexels.com/photos/6238297/pexels-photo-6238297.jpeg?auto=compress&cs=tinysrgb&w=800" } ]

/-- User actions available while a test is in progress. -/
inductive Action where
  | select (optionIndex : Nat)
  | next
  | prev
  deriving Repr, DecidableEq

/-- Embedding of `handleAnswerSelect` / `handleNext` / `handlePrevious`.
`select` writes at `currentQuestionIndex`; the UI only raises it while
`currentQuestionIndex < questions.length` (an option button of the rendered
question), so the write is always in bounds. `next` and `prev` clamp to
`[0, length-1]`. -/
def applyAction (s : TestState) : Action → TestState
  | .select optionIndex =>
    { s with answers := s.answers.set s.currentQuestionIndex (some optionIndex) }
  | .next =>
    if s.currentQuestionIndex < s.questions.length - 1 then
      { s with currentQuestionIndex := s.currentQuestionIndex + 1 }
    else s
  | .prev =>
    if 0 < s.currentQuestionIndex then
      { s with currentQuestionIndex := s.currentQuestionIndex - 1 }
    else s

/-- Runs a sequence of user actions on a screen state. -/
def runActions (s : TestState) (acts : List Action) : TestState :=
  acts.foldl applyAction s

/-- Loop of the score `reduce` in `handleSubmit`: walks the answers with a
running index and accumulator, comparing each answer (`===`, so the `null`
marker never matches) against the correct answer of the question at the
same index. -/
def computeScoreGo (qs : List Question) : Nat → Nat → List (Option Nat) → Nat
  | _, total, [] => total
  | index, total, answer :: rest =>
    match qs[index]? with
    | some q =>
      computeScoreGo qs (index + 1)
        (if answer = some q.correct_answer then total + 1 else total) rest
    | none => computeScoreGo qs (index + 1) total rest

/-- Embedding of the score computation in `handleSubmit`. -/
def computeScore (qs : List Question) (answers : List (Option Nat)) : Nat :=
  computeScoreGo qs 0 0 answers

/-- Specification-style count: the number of positions at which the
selected answer equals the correct answer of the question at the same
position. -/
def matchCount (qs : List Question) (answers : List (Option Nat)) : Nat :=
  (List.zip answers qs).countP (fun p => p.1 = some p.2.correct_answer)

/-- Embedding of `handleSubmit`: requires a session to exist; the completed
session keeps the session's identity fields, stores the screen's answers and
the computed score, and stamps the completion time. -/
def handleSubmit (s : TestState) (now : String) : Option TestSession :=
  match s.testSession with
  | none => none
  | some session =>
    some { session with
           answers := s.answers
           score := computeScore s.questions s.answers
           completed_at := some now }

/-! ## Results screen helpers -/

/-- Embedding of the percentage computation of the results screen:
`Math.round((score / total) * 100)` when `total > 0`, else `0`, in exact
rational arithmetic (`Math.round(x) = ⌊x + 1/2⌋` for non-negative `x`). -/
def percentage (score total : Nat) : Nat :=
  if 0 < total then (200 * score + total) / (2 * total) else 0

/-- Embedding of `getScoreMessage` from the results screen. -/
def getScoreMessage (language : String) (p : Nat) : String :=
  if p ≥ 80 then
    if language = "en" then "Excellent!"
    else if language = "hi" then "उत्कृष्ट!" else "అద్భుతం!"
  else if p ≥ 60 then
    if language = "en" then "Good!"
    else if language = "hi" then "अच्छा!" else "బాగుంది!"
  else
    if language = "en" then "Keep practicing!"
    else if language = "hi" then "अभ्यास जारी रखें!"
    else "అభ్యాసం కొనసాగించండి!"

/-! ## Data-access layer

Each operation receives the backend's reaction as an explicit `SupaResp`
argument: either a `{data, error}` pair (the resolved builder), or a thrown
exception (network failure, non-`Error` throw, ...).  The `try`/`catch`
blocks of the source are rendered by returning the failure envelope that
the `catch` branch builds for each thrown error. -/

/-- The uniform result envelope of the data-access layer: `message` is set
only on success, `error` only on failure (an unset field is JavaScript
`undefined`, modelled as `none`). -/
structure Envelope (α : Type) where
  success : Bool
  data : α
  message : Option String := none
  error : Option String := none
  deriving Repr, DecidableEq

/-- Outcome of an awaited backend call. -/
inductive SupaResp (α : Type) where
  | result (data : Option α) (error : Option String)
  | throws (msg : String)
  deriving Repr, DecidableEq

/-- A persisted row of the `images` relation. -/
structure ImageRow where
  id : String
  question_id : String
  image_url : String
  image_alt : String
  image_type : String
  display_order : Int
  created_at : String
  deriving Repr, DecidableEq

/-- Input of `insertImage` (`Omit<ImageData, 'id' | 'created_at'>`):
the optional fields may be absent. -/
structure ImageInput where
  question_id : String
  image_url : String
  image_alt : Option String := none
  image_type : Option String := none
  display_order : Option Int := none
  deriving Repr, DecidableEq

/-- The row sent to the backend by `insertImage` (its `dataToInsert`). -/
structure ImageInsertRow where
  question_id : String
  image_url : String
  image_alt : String
  image_type : String
  display_order : Int
  deriving Repr, DecidableEq

/-- JavaScript `x || d` for an optional string field: `undefined` and the
empty string are falsy. -/
def orDefaultStr (x : Option String) (d : String) : String :=
  match x with
  | none => d
  | some s => if s = "" then d else s

/-- JavaScript `x || d` for an optional numeric field: `undefined` and `0`
are falsy. -/
def orDefaultInt (x : Option Int) (d : Int) : Int :=
  match x with
  | none => d
  | some n => if n = 0 then d else n

/-- JavaScript truthiness of an optional string: present and non-empty. -/
def truthy (x : Option String) : Bool :=
  match x with
  | none => false
  | some s => s ≠ ""

/-- Embedding of `insertImage`.  The second component records the row sent
to the backend insert, or `none` when validation failed before any write
was issued. -/
def insertImage (imageData : ImageInput) (resp : SupaResp ImageRow) :
    Envelope (Option ImageRow) × Option ImageInsertRow :=
  if imageData.question_id = "" ∨ imageData.image_url = "" then
    ({ success := false, data := none,
       error := some "question_id and image_url are required fields" }, none)
  else
    let dataToInsert : ImageInsertRow :=
      { question_id := imageData.question_id
        image_url := imageData.image_url
        image_alt := orDefaultStr imageData.image_alt ""
        image_type := orDefaultStr imageData.image_type "general"
        display_order := orDefaultInt imageData.display_order 1 }
    match resp with
    | .throws msg =>
      ({ success := false, data := none, error := some msg }, some dataToInsert)
    | .result data error =>
      match error with
      | some e =>
        ({ success := false, data := none,
           error := some ("Failed to insert image: " ++ e) }, some dataToInsert)
      | none =>
        ({ success := true, data := data,
           message := some "Image inserted successfully" }, some dataToInsert)

/-- Embedding of `getImagesByQuestionId`. -/
def getImagesByQuestionId (questionId : String) (resp : SupaResp (List ImageRow)) :
    Envelope (List ImageRow) :=
  match resp with
  | .throws msg => { success := false, data := [], error := some msg }
  | .result data error =>
    match error with
    | some e =>
      { success := false, data := [],
        error := some ("Failed to fetch images: " ++ e) }
    | none =>
      { success := true, data := data.getD [],
        message := some ("Found " ++ toString (data.getD []).length ++ " images") }

/-- Embedding of `getQuestionsByLanguage`. -/
def getQuestionsByLanguage (language : String) (limit : Nat)
    (resp : SupaResp (List Question)) : Envelope (List Question) :=
  match resp with
  | .throws msg => { success := false, data := [], error := some msg }
  | .result data error =>
    match error with
    | some e =>
      { success := false, data := [],
        error := some ("Failed to fetch questions: " ++ e) }
    | none =>
      { success := true, data := data.getD [],
        message := some ("Found " ++ toString (data.getD []).length ++ " questions") }

/-- Input of `insertQuestion` (`Omit<Question, 'id' | 'created_at'>`). -/
structure QuestionInput where
  question_text : String
  options : List String
  correct_answer : Nat
  language : String
  category : String
  difficulty : String
  images : Option String := none
  deriving Repr, DecidableEq

/-- The row sent to the backend by `insertQuestion` (its `dataToInsert`):
falsy `category` / `difficulty` / `images` are replaced by their defaults. -/
structure QuestionInsertRow where
  question_text : String
  options : List String
  correct_answer : Nat
  language : String
  category : String
  difficulty : String
  images : Option String
  deriving Repr, DecidableEq

/-- Embedding of `insertQuestion`.  The second component records the row
sent to the backend insert, or `none` when validation failed before any
write was issued. -/
def insertQuestion (questionData : QuestionInput) (resp : SupaResp Question) :
    Envelope (Option Question) × Option QuestionInsertRow :=
  if questionData.question_text = "" ∨ questionData.options = [] then
    ({ success := false, data := none,
       error := some "question_text and options are required fields" }, none)
  else if truthy questionData.images
          && !isValidImageUrl (questionData.images.getD "") then
    ({ success := false, data := none,
       error := some "Invalid image URL format" }, none)
  else
    let dataToInsert : QuestionInsertRow :=
      { question_text := questionData.question_text
        options := questionData.options
        correct_answer := questionData.correct_answer
        language := questionData.language
        category := orDefaultStr (some questionData.category) "general"
        difficulty := orDefaultStr (some questionData.difficulty) "easy"
        images := if truthy questionData.images then questionData.images else none }
    match resp with
    | .throws msg =>
      ({ success := false, data := none, error := some msg }, some dataToInsert)
    | .result data error =>
      match error with
      | some e =>
        ({ success := false, data := none,
           error := some ("Failed to insert question: " ++ e) }, some dataToInsert)
      | none =>
        ({ success := true, data := data,
           message := some "Question inserted successfully" }, some dataToInsert)

/-- Partial update accepted by `updateQuestion`
(`Partial<Omit<Question, 'id' | 'created_at'>>`).  For the `images` field,
`none` covers both an absent field and an explicit `null`, which the source
treats identically (both are falsy). -/
structure QuestionUpdate where
  question_text : Option String := none
  options : Option (List String) := none
  correct_answer : Option Nat := none
  language : Option String := none
  category : Option String := none
  difficulty : Option String := none
  images : Option String := none
  deriving Repr, DecidableEq

/-- The database part of `updateQuestion` (everything after the image-URL
validation guard). -/
def updateQuestionDb (resp : SupaResp Question) : Envelope (Option Question) :=
  match resp with
  | .throws msg => { success := false, data := none, error := some msg }
  | .result data error =>
    match error with
    | some e =>
      { success := false, data := none,
        error := some ("Failed to update question: " ++ e) }
    | none =>
      { success := true, data := data,
        message := some "Question updated successfully" }

/-- Embedding of `updateQuestion`. -/
def updateQuestion (id : String) (updates : QuestionUpdate)
    (resp : SupaResp Question) : Envelope (Option Question) :=
  if truthy updates.images && !isValidImageUrl (updates.images.getD "") then
    { success := false, data := none, error := some "Invalid image URL format" }
  else updateQuestionDb resp

/-- Embedding of `loadQuestions` on the test screen: on a failure envelope,
or on a success envelope with zero rows, fall back to the built-in sample
questions; otherwise install the fetched questions. -/
def loadQuestionsState (result : Envelope (List Question)) (lang sid ts : String) :
    TestState :=
  if result.success = false then mkState (sampleQuestions lang ts) lang sid ts
  else if 0 < result.data.length then mkState result.data lang sid ts
  else mkState (sampleQuestions lang ts) lang sid ts

/-! ## Auxiliary definitions for the statements -/

/-- The uniform envelope shape for list-valued operations: success carries
a message and no error; failure carries an empty list, an error, and no
message. -/
def envelopeShapeL {α : Type} (e : Envelope (List α)) : Prop :=
  (e.success = true ∧ e.message.isSome = true ∧ e.error = none) ∨
  (e.success = false ∧ e.data = [] ∧ e.error.isSome = true ∧ e.message = none)

/-- The uniform envelope shape for row-valued operations: success carries
a message and no error; failure carries `null` data, an error, and no
message. -/
def envelopeShapeO {α : Type} (e : Envelope (Option α)) : Prop :=
  (e.success = true ∧ e.message.isSome = true ∧ e.error = none) ∨
  (e.success = false ∧ e.data = none ∧ e.error.isSome = true ∧ e.message = none)

/-- The state invariant maintained by the test screen while a test is in
progress: the question list is the loaded one, the answers array keeps the
question list's length, and the in-progress session record is untouched. -/
def StateInv (qs : List Question) (sess : TestSession) (s : TestState) : Prop :=
  s.questions = qs ∧ s.answers.length = qs.length ∧ s.testSession = some sess

/-- Question input whose `images` field is the (falsy) empty string. -/
def emptyImagesInput : QuestionInput :=
  { question_text := "q"
    options := ["a", "b"]
    correct_answer := 0
    language := "en"
    category := "general"
    difficulty := "easy"
    images := some "" }

/-- A persisted question row, as a stand-in backend reply. -/
def someQuestionRow : Question :=
  { id := "7"
    question_text := "q"
    options := ["a", "b"]
    correct_answer := 0
    language := "en"
    category := "general"
    difficulty := "easy"
    created_at := "t"
    images := none }

/-- The completed session produced by submitting an empty question list
untouched (used to instantiate the submit theorem). -/
def emptySubmittedSession : TestSession :=
  { id := "s"
    language := "en"
    questions := []
    answers := []
    score := 0
    total_questions := 0
    completed_at := some "t1"
    created_at := "t0" }

/-- A question input with empty question text. -/
def qdNoText : QuestionInput :=
  { question_text := ""
    options := ["a"]
    correct_answer := 0
    language := "en"
    category := "general"
    difficulty := "easy" }

/-- A question input carrying a non-empty image reference that fails the
stage-1 predicate. -/
def qdBadImage : QuestionInput :=
  { question_text := "q"
    options := ["a"]
    correct_answer := 0
    language := "en"
    category := "general"
    difficulty := "easy"
    images := some "notaurl" }

/-- A partial update carrying a non-empty invalid image reference. -/
def updBadImage : QuestionUpdate := { images := some "notaurl" }

/-- A partial update without the `images` field. -/
def updNoImage : QuestionUpdate := {}

/-- An image input with a missing (empty) `image_url`. -/
def imgNoUrl : ImageInput := { question_id := "123", image_url := "" }

/-- An image input with only the required fields supplied. -/
def imgMinimal : ImageInput :=
  { question_id := "123", image_url := "https://i.imgur.com/a.png" }

/-- The row `insertImage` sends for `imgMinimal`: all defaults applied. -/
def imgMinimalRow : ImageInsertRow :=
  { question_id := "123"
    image_url := "https://i.imgur.com/a.png"
    image_alt := ""
    image_type := "general"
    display_order := 1 }

/-- An image input with falsy supplied values: `image_type` is the empty
string and `display_order` is `0`. -/
def imgFalsy : ImageInput :=
  { question_id := "123"
    image_url := "https://i.imgur.com/a.png"
    image_alt := some "alt"
    image_type := some ""
    display_order := some 0 }

/-- The row `insertImage` sends for `imgFalsy`: the falsy values are
coerced to the defaults. -/
def imgFalsyRow : ImageInsertRow :=
  { question_id := "123"
    image_url := "https://i.imgur.com/a.png"
    image_alt := "alt"
    image_type := "general"
    display_order := 1 }

/-- A persisted image row, as a stand-in backend reply. -/
def someImageRow : ImageRow :=
  { id := "i1"
    question_id := "123"
    image_url := "https://i.imgur.com/a.png"
    image_alt := ""
    image_type := "general"
    display_order := 1
    created_at := "t" }

/-- A fetch response with an image content type. -/
def probeResp : FetchResp := { status := 200, contentType := some "image/png" }

/-! ## Helper lemmas -/

theorem computeScoreGo_eq (qs : List Question) (ans : List (Option Nat)) :
    ∀ (i t : Nat), computeScoreGo qs i t ans =
      t + ((ans.zip (qs.drop i)).countP fun p => p.1 = some p.2.correct_answer) := by
  induction ans with
  | nil => intro i t; simp [computeScoreGo]
  | cons a rest ih =>
    intro i t
    cases h : qs[i]? with
    | some q =>
      have hlt : i < qs.length := by
        by_contra hge
        simp [List.getElem?_eq_none (Nat.le_of_not_lt hge)] at h
      have hdrop : qs.drop i = q :: qs.drop (i + 1) := by
        rw [List.drop_eq_getElem_cons hlt]
        congr 1
        rw [List.getElem?_eq_getElem hlt] at h
        exact Option.some_inj.mp h
      simp only [computeScoreGo, h, hdrop, List.zip_cons_cons, List.countP_cons, ih]
      by_cases hc : a = some q.correct_answer <;> simp [hc] <;> omega
    | none =>
      have hge : qs.length ≤ i := by
        by_contra hlt
        simp [List.getElem?_eq_getElem (Nat.lt_of_not_le hlt)] at h
      have h1 : qs.drop i = [] := List.drop_eq_nil_of_le hge
      have h2 : qs.drop (i + 1) = [] := List.drop_eq_nil_of_le (Nat.le_succ_of_le hge)
      simp only [computeScoreGo, h, ih, h1, h2, List.zip_nil_right, List.countP_nil]

theorem computeScore_eq_matchCount (qs : List Question) (ans : List (Option Nat)) :
    computeScore qs ans = matchCount qs ans := by
  simpa [computeScore, matchCount] using computeScoreGo_eq qs ans 0 0

theorem matchCount_le (qs : List Question) (ans : List (Option Nat)) :
    matchCount qs ans ≤ qs.length := by
  calc matchCount qs ans ≤ (ans.zip qs).length := List.countP_le_length _
    _ ≤ qs.length := by rw [List.length_zip]; exact Nat.min_le_right _ _

theorem applyAction_inv (qs : List Question) (sess : TestSession)
    (s : TestState) (a : Action) (h : StateInv qs sess s) :
    StateInv qs sess (applyAction s a) := by
  obtain ⟨h1, h2, h3⟩ := h
  cases a with
  | select i =>
    refine ⟨h1, ?_, h3⟩
    simp only [applyAction, List.length_set]
    exact h2
  | next =>
    simp only [applyAction]
    split
    · exact ⟨h1, h2, h3⟩
    · exact ⟨h1, h2, h3⟩
  | prev =>
    simp only [applyAction]
    split
    · exact ⟨h1, h2, h3⟩
    · exact ⟨h1, h2, h3⟩

theorem runActions_inv (qs : List Question) (sess : TestSession)
    (acts : List Action) :
    ∀ (s : TestState), StateInv qs sess s → StateInv qs sess (runActions s acts) := by
  induction acts with
  | nil => exact fun s h => h
  | cons a rest ih =>
    intro s h
    exact ih (applyAction s a) (applyAction_inv qs sess s a h)

theorem mkState_inv (qs : List Question) (lang sid ts : String) :
    StateInv qs (initSession qs lang sid ts) (mkState qs lang sid ts) :=
  ⟨rfl, by simp [mkState], rfl⟩

theorem orDefaultInt_one_ne_zero (x : Option Int) : orDefaultInt x 1 ≠ 0 := by
  rcases x with _ | n
  · simp [orDefaultInt]
  · simp only [orDefaultInt]
    split
    · decide
    · assumption

/-! ## Claim theorems -/

/-- Claim C1: every completed test session produced by the submit operation
(from any state reachable from a freshly loaded question list by
answer-select / next / previous actions) stores a score equal to the number
of positions at which the selected answer equals the correct answer of the
question at the same position, the score is at most `total_questions`, and
the answers, question-id list and `total_questions` agree in length. -/
theorem submit_session_score_correct (qs : List Question)
    (lang sid ts : String) (acts : List Action) (now : String)
    (sess : TestSession)
    (h : handleSubmit (runActions (mkState qs lang sid ts) acts) now = some sess) :
    sess.score = matchCount qs sess.answers ∧
    sess.score ≤ sess.total_questions ∧
    sess.answers.length = sess.questions.length ∧
    sess.questions.length = sess.total_questions := by
  obtain ⟨h1, h2, h3⟩ :=
    runActions_inv qs (initSession qs lang sid ts) acts
      (mkState qs lang sid ts) (mkState_inv qs lang sid ts)
  rw [handleSubmit, h3] at h
  obtain rfl := Option.some_inj.mp h.symm
  refine ⟨?_, ?_, ?_, ?_⟩
  · simpa [h1] using computeScore_eq_matchCount qs
      (runActions (mkState qs lang sid ts) acts).answers
  · simpa [initSession, h1, computeScore_eq_matchCount] using
      matchCount_le qs (runActions (mkState qs lang sid ts) acts).answers
  · simpa [initSession] using h2
  · simp [initSession]

/-- Instantiation of the submit theorem at a concrete input (the empty
question list, no actions). -/
theorem submit_session_score_correct_witness :
    handleSubmit (runActions (mkState [] "en" "s" "t0") []) "t1" =
      some emptySubmittedSession ∧
    (emptySubmittedSession.score = matchCount [] emptySubmittedSession.answers ∧
     emptySubmittedSession.score ≤ emptySubmittedSession.total_questions ∧
     emptySubmittedSession.answers.length = emptySubmittedSession.questions.length ∧
     emptySubmittedSession.questions.length = emptySubmittedSession.total_questions) :=
  ⟨rfl, submit_session_score_correct [] "en" "s" "t0" [] "t1" emptySubmittedSession rfl⟩

/-- Claim C2, counterexample: the source accepts a URL whose path merely
CONTAINS an image extension without ending in one (and which meets none of
the claimed acceptance conditions), so the claimed characterisation of
`isValidImageUrl` is not the implemented one. -/
theorem isValidImageUrl_claimed_cex :
    isValidImageUrl "https://example.com/a.jpg.html" = true ∧
    isValidImageUrlClaimed "https://example.com/a.jpg.html" = false :=
  ⟨rfl, rfl⟩

/-- Claim C2, amended: `isValidImageUrl` accepts exactly the http/https URLs
whose path CONTAINS one of the image extensions as a substring, or whose
hostname CONTAINS one of the allow-listed domains as a substring, or whose
path contains `/images/`, or whose query has a `w` or `width` parameter;
non-parsing strings are rejected. -/
theorem isValidImageUrl_characterization (url : String) :
    isValidImageUrl url = isValidImageUrlContains url := by
  by_cases hu : url = ""
  · subst hu; rfl
  · simp only [isValidImageUrl, isValidImageUrlContains, if_neg hu]

/-- Claim C3: the results view computes `percentage` as the rounding of
`score/total × 100` (characterised exactly for `total > 0`, and `0` when
`total = 0`), assigns the "excellent" message at `percentage ≥ 80`, "good"
at `60 ≤ percentage < 80`, "keep practicing" below; and on the 3-question
scenario with answers `[1, 0, 2]` against correct answers `[1, 1, 2]` the
score is 2, the percentage 67, and the band "good". -/
theorem results_percentage_band (s t p : Nat) (ts : String) :
    percentage s 0 = 0 ∧
    (0 < t → 2 * t * percentage s t ≤ 200 * s + t ∧
             200 * s + t < 2 * t * (percentage s t + 1)) ∧
    (80 ≤ p → getScoreMessage "en" p = "Excellent!") ∧
    (60 ≤ p → p < 80 → getScoreMessage "en" p = "Good!") ∧
    (p < 60 → getScoreMessage "en" p = "Keep practicing!") ∧
    computeScore (sampleQuestions "en" ts) [some 1, some 0, some 2] = 2 ∧
    percentage 2 3 = 67 ∧
    getScoreMessage "en" 67 = "Good!" := by
  refine ⟨rfl, ?_, ?_, ?_, ?_, rfl, rfl, rfl⟩
  · intro ht
    simp only [percentage, if_pos ht]
    constructor
    · exact Nat.mul_div_le (200 * s + t) (2 * t)
    · exact Nat.lt_mul_div_succ (200 * s + t) (by omega)
  · intro hp; simp [getScoreMessage, hp]
  · intro hp hq
    simp [getScoreMessage, hp, Nat.not_le.mpr hq]
  · intro hp
    have h80 : ¬ 80 ≤ p := by omega
    have h60 : ¬ 60 ≤ p := by omega
    simp [getScoreMessage, h80, h60]

/-- Instantiation of the results theorem at concrete percentages (85, 67
and 10) discharging each band hypothesis. -/
theorem results_percentage_band_witness :
    (0 < 3 ∧ 2 * 3 * percentage 2 3 ≤ 200 * 2 + 3 ∧
       200 * 2 + 3 < 2 * 3 * (percentage 2 3 + 1)) ∧
    (80 ≤ 85 ∧ getScoreMessage "en" 85 = "Excellent!") ∧
    (60 ≤ 67 ∧ 67 < 80 ∧ getScoreMessage "en" 67 = "Good!") ∧
    (10 < 60 ∧ getScoreMessage "en" 10 = "Keep practicing!") :=
  ⟨⟨by decide, (results_percentage_band 2 3 85 "t").2.1 (by decide)⟩,
   ⟨by decide, (results_percentage_band 2 3 85 "t").2.2.1 (by decide)⟩,
   ⟨by decide, by decide,
     (results_percentage_band 2 3 67 "t").2.2.2.1 (by decide) (by decide)⟩,
   ⟨by decide, (results_percentage_band 2 3 10 "t").2.2.2.2.1 (by decide)⟩⟩

/-- Claim C4: every data-access operation, for every input and every
backend outcome (including a thrown error), returns the uniform envelope —
success with data and message, or failure with empty/null data and an
error — and, being a total function of the backend outcome, propagates no
exception to its caller. -/
theorem dataAccess_uniform_envelope :
    (∀ (language : String) (limit : Nat) (resp : SupaResp (List Question)),
       envelopeShapeL (getQuestionsByLanguage language limit resp)) ∧
    (∀ (qd : QuestionInput) (resp : SupaResp Question),
       envelopeShapeO (insertQuestion qd resp).1) ∧
    (∀ (id : String) (upd : QuestionUpdate) (resp : SupaResp Question),
       envelopeShapeO (updateQuestion id upd resp)) ∧
    (∀ (img : ImageInput) (resp : SupaResp ImageRow),
       envelopeShapeO (insertImage img resp).1) ∧
    (∀ (qid : String) (resp : SupaResp (List ImageRow)),
       envelopeShapeL (getImagesByQuestionId qid resp)) := by
  refine ⟨?_, ?_, ?_, ?_, ?_⟩
  · intro language limit resp
    rcases resp with ⟨data, error⟩ | msg
    · rcases error with _ | e <;>
        simp [getQuestionsByLanguage, envelopeShapeL]
    · simp [getQuestionsByLanguage, envelopeShapeL]
  · intro qd resp
    unfold insertQuestion
    split
    · simp [envelopeShapeO]
    · split
      · simp [envelopeShapeO]
      · rcases resp with ⟨data, error⟩ | msg
        · rcases error with _ | e <;> simp [envelopeShapeO]
        · simp [envelopeShapeO]
  · intro id upd resp
    unfold updateQuestion
    split
    · simp [envelopeShapeO]
    · rcases resp with ⟨data, error⟩ | msg
      · rcases error with _ | e <;> simp [updateQuestionDb, envelopeShapeO]
      · simp [updateQuestionDb, envelopeShapeO]
  · intro img resp
    unfold insertImage
    split
    · simp [envelopeShapeO]
    · rcases resp with ⟨data, error⟩ | msg
      · rcases error with _ | e <;> simp [envelopeShapeO]
      · simp [envelopeShapeO]
  · intro qid resp
    rcases resp with ⟨data, error⟩ | msg
    · rcases error with _ | e <;>
        simp [getImagesByQuestionId, envelopeShapeL]
    · simp [getImagesByQuestionId, envelopeShapeL]

/-- Claim C5, counterexample: an `images` value IS supplied (the empty
string) and fails `isValidImageUrl`, yet `insertQuestion` does not reject —
the falsy-value guard skips the validation, so the claim's "whenever an
images value is supplied that fails isValidImageUrl" is not what the source
implements. -/
theorem insertQuestion_empty_images_cex :
    isValidImageUrl "" = false ∧
    (insertQuestion emptyImagesInput (.result (some someQuestionRow) none)).1.success
      = true :=
  ⟨rfl, rfl⟩

/-- Claim C5, amended: `insertQuestion` rejects without a backend write when
the question text is empty or the options list is empty, and when a
present-and-NON-EMPTY `images` value fails `isValidImageUrl`; and
`updateQuestion` applies the image check only when `images` is present and
non-empty, rejecting when that check fails. -/
theorem question_validation (qd : QuestionInput) (id : String)
    (upd : QuestionUpdate) (respQ respU : SupaResp Question) :
    (qd.question_text = "" ∨ qd.options = [] →
       insertQuestion qd respQ =
         ({ success := false, data := none,
            error := some "question_text and options are required fields" }, none)) ∧
    (¬ (qd.question_text = "" ∨ qd.options = []) →
       truthy qd.images = true →
       isValidImageUrl (qd.images.getD "") = false →
       insertQuestion qd respQ =
         ({ success := false, data := none,
            error := some "Invalid image URL format" }, none)) ∧
    (truthy upd.images = true →
       isValidImageUrl (upd.images.getD "") = false →
       updateQuestion id upd respU =
         { success := false, data := none,
           error := some "Invalid image URL format" }) ∧
    (truthy upd.images = false →
       updateQuestion id upd respU = updateQuestionDb respU) := by
  refine ⟨?_, ?_, ?_, ?_⟩
  · intro h
    unfold insertQuestion
    rw [if_pos h]
  · intro h h1 h2
    unfold insertQuestion
    rw [if_neg h, if_pos (by simp [h1, h2])]
  · intro h1 h2
    unfold updateQuestion
    rw [if_pos (by simp [h1, h2])]
  · intro h1
    unfold updateQuestion
    rw [if_neg (by simp [h1])]

/-- Instantiation of the validation theorem at concrete inputs: an empty
question text, a non-empty invalid image reference on insert, the same on
update, and an update without the `images` field. -/
theorem question_validation_witness :
    (qdNoText.question_text = "" ∧
     insertQuestion qdNoText (.throws "net") =
       ({ success := false, data := none,
          error := some "question_text and options are required fields" }, none)) ∧
    (¬ (qdBadImage.question_text = "" ∨ qdBadImage.options = []) ∧
     truthy qdBadImage.images = true ∧
     isValidImageUrl (qdBadImage.images.getD "") = false ∧
     insertQuestion qdBadImage (.throws "net") =
       ({ success := false, data := none,
          error := some "Invalid image URL format" }, none)) ∧
    (truthy updBadImage.images = true ∧
     isValidImageUrl (updBadImage.images.getD "") = false ∧
     updateQuestion "7" updBadImage (.throws "net") =
       { success := false, data := none,
         error := some "Invalid image URL format" }) ∧
    (truthy updNoImage.images = false ∧
     updateQuestion "7" updNoImage (.throws "net") =
       updateQuestionDb (.throws "net")) :=
  ⟨⟨rfl, (question_validation qdNoText "7" updNoImage (.throws "net")
          (.throws "net")).1 (Or.inl rfl)⟩,
   ⟨by decide, rfl, rfl,
    (question_validation qdBadImage "7" updNoImage (.throws "net")
          (.throws "net")).2.1 (by decide) rfl rfl⟩,
   ⟨rfl, rfl,
    (question_validation qdBadImage "7" updBadImage (.throws "net")
          (.throws "net")).2.2.1 rfl rfl⟩,
   ⟨rfl,
    (question_validation qdBadImage "7" updNoImage (.throws "net")
          (.throws "net")).2.2.2 rfl⟩⟩

/-- Claim C6: `insertImage` fails without creating a row when `question_id`
or `image_url` is missing (empty); with both present it sends a row whose
absent optional fields take the defaults (`""`, `"general"`, `1`), and on
backend success it returns the persisted row. -/
theorem insertImage_requirements (input : ImageInput)
    (resp : SupaResp ImageRow) (row : ImageRow) :
    (input.question_id = "" ∨ input.image_url = "" →
       insertImage input resp =
         ({ success := false, data := none,
            error := some "question_id and image_url are required fields" }, none)) ∧
    (input.question_id ≠ "" → input.image_url ≠ "" →
       input.image_alt = none → input.image_type = none →
       input.display_order = none →
       (insertImage input resp).2 = some
         { question_id := input.question_id
           image_url := input.image_url
           image_alt := ""
           image_type := "general"
           display_order := 1 }) ∧
    (input.question_id ≠ "" → input.image_url ≠ "" →
       resp = .result (some row) none →
       (insertImage input resp).1 =
         { success := true, data := some row,
           message := some "Image inserted successfully" }) := by
  refine ⟨?_, ?_, ?_⟩
  · intro h
    unfold insertImage
    rw [if_pos h]
  · intro h1 h2 h3 h4 h5
    unfold insertImage
    rw [if_neg (by simp [h1, h2])]
    rcases resp with ⟨data, error⟩ | msg
    · rcases error with _ | e <;> simp [h3, h4, h5, orDefaultStr, orDefaultInt]
    · simp [h3, h4, h5, orDefaultStr, orDefaultInt]
  · intro h1 h2 h3
    subst h3
    unfold insertImage
    rw [if_neg (by simp [h1, h2])]

/-- Instantiation of the insert-image theorem at concrete inputs: a missing
`image_url`, and a minimal input against a successful backend reply. -/
theorem insertImage_requirements_witness :
    (imgNoUrl.image_url = "" ∧
     insertImage imgNoUrl (.throws "net") =
       ({ success := false, data := none,
          error := some "question_id and image_url are required fields" }, none)) ∧
    (imgMinimal.question_id ≠ "" ∧ imgMinimal.image_url ≠ "" ∧
     imgMinimal.image_alt = none ∧ imgMinimal.image_type = none ∧
     imgMinimal.display_order = none ∧
     (insertImage imgMinimal (.result (some someImageRow) none)).2 = some
       { question_id := imgMinimal.question_id
         image_url := imgMinimal.image_url
         image_alt := ""
         image_type := "general"
         display_order := 1 }) ∧
    (insertImage imgMinimal (.result (some someImageRow) none)).1 =
      { success := true, data := some someImageRow,
        message := some "Image inserted successfully" } :=
  ⟨⟨rfl, (insertImage_requirements imgNoUrl (.throws "net") someImageRow).1
          (Or.inr rfl)⟩,
   ⟨by decide, by decide, rfl, rfl, rfl,
    (insertImage_requirements imgMinimal (.result (some someImageRow) none)
        someImageRow).2.1 (by decide) (by decide) rfl rfl rfl⟩,
   (insertImage_requirements imgMinimal (.result (some someImageRow) none)
       someImageRow).2.2 (by decide) (by decide) rfl⟩

/-- Claim C7: the network probe `validateImageUrl` returns false whenever
the stage-1 predicate rejects; otherwise, with a HEAD response it accepts
exactly when the response is ok and the content type starts with `image/`
or the status is 200; on a thrown HEAD it accepts exactly when the ranged
GET response is ok; and when both requests throw it returns true. -/
theorem validateImageUrl_probe (url : String) (head get : FetchResult)
    (r : FetchResp) :
    (isValidImageUrl url = false → validateImageUrl url head get = false) ∧
    (isValidImageUrl url = true →
       validateImageUrl url (.resp r) get =
         (respOk r && (ctIsImage r || r.status == 200))) ∧
    (isValidImageUrl url = true →
       validateImageUrl url .throws (.resp r) = respOk r) ∧
    (isValidImageUrl url = true →
       validateImageUrl url .throws .throws = true) := by
  refine ⟨?_, ?_, ?_, ?_⟩ <;> intro h <;> simp [validateImageUrl, h]

/-- Instantiation of the probe theorem at concrete inputs: a rejected
string and an accepted URL against each network outcome. -/
theorem validateImageUrl_probe_witness :
    (isValidImageUrl "not a url" = false ∧
     validateImageUrl "not a url" .throws .throws = false) ∧
    (isValidImageUrl "https://i.imgur.com/a.png" = true ∧
     validateImageUrl "https://i.imgur.com/a.png" (.resp probeResp) .throws =
       (respOk probeResp && (ctIsImage probeResp || probeResp.status == 200)) ∧
     validateImageUrl "https://i.imgur.com/a.png" .throws (.resp probeResp) =
       respOk probeResp ∧
     validateImageUrl "https://i.imgur.com/a.png" .throws .throws = true) :=
  ⟨⟨rfl, (validateImageUrl_probe "not a url" .throws .throws probeResp).1 rfl⟩,
   ⟨rfl,
    (validateImageUrl_probe "https://i.imgur.com/a.png" (.resp probeResp)
        .throws probeResp).2.1 rfl,
    (validateImageUrl_probe "https://i.imgur.com/a.png" .throws
        (.resp probeResp) probeResp).2.2.1 rfl,
    (validateImageUrl_probe "https://i.imgur.com/a.png" .throws .throws
        probeResp).2.2.2 rfl⟩⟩

/-- Claim C8: when the question fetch fails or returns zero rows, the test
flow installs the fixed built-in sample set of exactly 3 questions (one per
illustrative category), each carrying the active language code; in
particular a fetch for `"hi"` returning 0 rows yields the 3 samples all
flagged `language = "hi"`. -/
theorem loadQuestions_sample_fallback (result : Envelope (List Question))
    (lang sid ts : String) :
    (result.success = false ∨ result.data = [] →
       loadQuestionsState result lang sid ts =
         mkState (sampleQuestions lang ts) lang sid ts) ∧
    (sampleQuestions lang ts).length = 3 ∧
    (sampleQuestions lang ts).map (fun q => q.language) = [lang, lang, lang] ∧
    (sampleQuestions lang ts).map (fun q => q.category) =
      ["general", "science", "mathematics"] ∧
    ((loadQuestionsState { success := true, data := [] } "hi" sid ts).questions.map
        (fun q => q.language)) = ["hi", "hi", "hi"] := by
  refine ⟨?_, rfl, rfl, rfl, rfl⟩
  rintro (h | h)
  · simp [loadQuestionsState, h]
  · cases hs : result.success
    · simp [loadQuestionsState, hs]
    · simp [loadQuestionsState, hs, h]

/-- Instantiation of the fallback theorem at a concrete failure envelope
and language `"hi"`. -/
theorem loadQuestions_sample_fallback_witness :
    (({ success := false, data := [], error := some "boom" } :
        Envelope (List Question)).success = false ∧
     loadQuestionsState
        { success := false, data := [], error := some "boom" } "hi" "s" "t" =
       mkState (sampleQuestions "hi" "t") "hi" "s" "t") :=
  ⟨rfl, (loadQuestions_sample_fallback
      { success := false, data := [], error := some "boom" } "hi" "s" "t").1
      (Or.inl rfl)⟩

/-- Claim C9: the three specified evaluations of `isValidImageUrl`. -/
theorem isValidImageUrl_examples :
    isValidImageUrl "not a url" = false ∧
    isValidImageUrl "https://images.pexels.com/photos/1/x.jpeg" = true ∧
    isValidImageUrl "ftp://x.com/a.png" = false :=
  ⟨rfl, rfl, rfl⟩

/-- Claim C10: `insertImage` coerces falsy supplied values of the
defaultable fields to their defaults — a supplied `display_order = 0` is
inserted as `1`, a falsy (empty) `image_type` as `"general"` — and the row
sent by any call never carries `display_order = 0`. -/
theorem insertImage_falsy_coercion (input : ImageInput)
    (resp : SupaResp ImageRow) (row : ImageInsertRow) :
    (input.question_id ≠ "" → input.image_url ≠ "" →
       input.display_order = some 0 →
       (insertImage input resp).2.map (fun r0 => r0.display_order) = some 1) ∧
    (input.question_id ≠ "" → input.image_url ≠ "" →
       input.image_type = some "" →
       (insertImage input resp).2.map (fun r0 => r0.image_type) = some "general") ∧
    ((insertImage input resp).2 = some row → row.display_order ≠ 0) := by
  refine ⟨?_, ?_, ?_⟩
  · intro h1 h2 h3
    unfold insertImage
    rw [if_neg (by simp [h1, h2])]
    rcases resp with ⟨data, error⟩ | msg
    · rcases error with _ | e <;> simp [h3, orDefaultInt]
    · simp [h3, orDefaultInt]
  · intro h1 h2 h3
    unfold insertImage
    rw [if_neg (by simp [h1, h2])]
    rcases resp with ⟨data, error⟩ | msg
    · rcases error with _ | e <;> simp [h3, orDefaultStr]
    · simp [h3, orDefaultStr]
  · intro h
    unfold insertImage at h
    split at h
    · exact absurd h (by simp)
    · have hrow : row.display_order = orDefaultInt input.display_order 1 := by
        rcases resp with ⟨data, error⟩ | msg
        · rcases error with _ | e <;>
            (simp at h; rw [← h])
        · simp at h; rw [← h]
      rw [hrow]
      exact orDefaultInt_one_ne_zero input.display_order

/-- Instantiation of the falsy-coercion theorem at the concrete input with
`display_order = 0` and an empty `image_type`. -/
theorem insertImage_falsy_coercion_witness :
    (imgFalsy.question_id ≠ "" ∧ imgFalsy.image_url ≠ "" ∧
     imgFalsy.display_order = some 0 ∧
     (insertImage imgFalsy (.throws "net")).2.map (fun r0 => r0.display_order) =
       some 1) ∧
    (imgFalsy.image_type = some "" ∧
     (insertImage imgFalsy (.throws "net")).2.map (fun r0 => r0.image_type) =
       some "general") ∧
    ((insertImage imgFalsy (.throws "net")).2 = some imgFalsyRow ∧
     imgFalsyRow.display_order ≠ 0) :=
  ⟨⟨by decide, by decide, rfl,
    (insertImage_falsy_coercion imgFalsy (.throws "net") imgFalsyRow).1
      (by decide) (by decide) rfl⟩,
   ⟨rfl,
    (insertImage_falsy_coercion imgFalsy (.throws "net") imgFalsyRow).2.1
      (by decide) (by decide) rfl⟩,
   ⟨rfl,
    (insertImage_falsy_coercion imgFalsy (.throws "net") imgFalsyRow).2.2 rfl⟩⟩

end QuizApp
